import Mathlib

/-!
Shallow embedding of src/services/geminiService.ts (a thin client around a
remote generative-image service) together with theorems about its behavior.

Modelling conventions:
  * A JavaScript string is a Lean String.
  * A JavaScript value that may be null or undefined is an Option.
  * The remote endpoint is passed to each operation as an explicit function
    argument (the code has no other interaction with the outside world).
  * JavaScript truthiness of a string is the condition of being nonempty;
    truthiness of an object reference is the condition of being present.
-/

/-- One content part of a service response: optional inline binary payload
(the base64 data field of the inlineData object) and optional text. -/
structure ApiPart where
  inlineData : Option String := none
  text : Option String := none
deriving DecidableEq, Repr

/-- A service response: each candidate contributes the part list of its
content. The source only ever reads the first candidate. -/
structure ApiResponse where
  candidates : List (List ApiPart)
deriving DecidableEq, Repr

/-- The normalized result shape returned by the image-editing operations. -/
structure GenResult where
  image : Option String
  text : Option String
deriving DecidableEq, Repr

/-- The fixed fallback message used when a response bears neither image nor
text. -/
def noContentMsg : String :=
  "No content was generated. The request may have been blocked."

/-- Value the loop body of processApiResponse assigns for a part with an
inlineData payload: the data relabeled as a PNG data URL. -/
def partImageValue (p : ApiPart) : Option String :=
  match p.inlineData with
  | some d => some ("data:image/png;base64," ++ d)
  | none => none

/-- Value the loop body of processApiResponse assigns for a part whose text
field is truthy (present and nonempty). -/
def partTextValue (p : ApiPart) : Option String :=
  match p.text with
  | some t => if t = "" then none else some t
  | none => none

/-- The scanning loop of processApiResponse: the two mutable locals
editedImageBase64 and responseText, each overwritten whenever a part
carries the corresponding payload. -/
def processParts (parts : List ApiPart) : Option String × Option String :=
  parts.foldl
    (fun acc part => ((partImageValue part).or acc.1, (partTextValue part).or acc.2))
    (none, none)

/-- Embedding of processApiResponse: scan the parts of the first candidate,
then substitute the fixed fallback message when neither an image nor a text
was picked up. -/
def processApiResponse (response : ApiResponse) : GenResult :=
  let acc : Option String × Option String :=
    match response.candidates with
    | [] => (none, none)
    | parts :: _ => processParts parts
  match acc with
  | (none, none) => { image := none, text := some noContentMsg }
  | (img, txt) => { image := img, text := txt }

/-- Last-wins reading of the scan: the image value contributed by the LAST
part carrying an inlineData payload, if any. -/
def lastImageResult : List ApiPart → Option String
  | [] => none
  | p :: ps => (lastImageResult ps).or (partImageValue p)

/-- Last-wins reading of the scan: the text contributed by the LAST part
carrying nonempty text, if any. -/
def lastTextResult : List ApiPart → Option String
  | [] => none
  | p :: ps => (lastTextResult ps).or (partTextValue p)

theorem processParts_foldl_char (parts : List ApiPart) :
    ∀ i t : Option String,
      parts.foldl
        (fun acc part => ((partImageValue part).or acc.1, (partTextValue part).or acc.2))
        (i, t)
      = ((lastImageResult parts).or i, (lastTextResult parts).or t) := by
  induction parts with
  | nil =>
    intro i t
    simp [lastImageResult, lastTextResult]
  | cons p ps ih =>
    intro i t
    simp only [List.foldl_cons, ih, lastImageResult, lastTextResult, Option.or_assoc]

theorem processParts_eq (parts : List ApiPart) :
    processParts parts = (lastImageResult parts, lastTextResult parts) := by
  unfold processParts
  rw [processParts_foldl_char]
  simp [Option.or_none]

theorem processApiResponse_char (parts : List ApiPart) (rest : List (List ApiPart)) :
    processApiResponse ⟨parts :: rest⟩ =
      { image := lastImageResult parts,
        text := if lastImageResult parts = none ∧ lastTextResult parts = none
                then some noContentMsg else lastTextResult parts } := by
  cases h1 : lastImageResult parts <;> cases h2 : lastTextResult parts <;>
    simp [processApiResponse, processParts_eq, h1, h2]

theorem lastImageResult_none (parts : List ApiPart)
    (h : ∀ p ∈ parts, p.inlineData = none) : lastImageResult parts = none := by
  induction parts with
  | nil => rfl
  | cons p ps ih =>
    have hp : p.inlineData = none := h p (List.mem_cons_self p ps)
    have hrest := ih fun q hq => h q (List.mem_cons_of_mem p hq)
    simp [lastImageResult, partImageValue, hp, hrest]

theorem lastTextResult_none (parts : List ApiPart)
    (h : ∀ p ∈ parts, partTextValue p = none) : lastTextResult parts = none := by
  induction parts with
  | nil => rfl
  | cons p ps ih =>
    have hp : partTextValue p = none := h p (List.mem_cons_self p ps)
    have hrest := ih fun q hq => h q (List.mem_cons_of_mem p hq)
    simp [lastTextResult, hp, hrest]

/-- C1 (counterexample): a response whose first candidate holds two binary
parts produces the image result from the SECOND binary part, while the
claim demands the first. -/
theorem processApiResponse_two_binary_counterexample :
    (processApiResponse
        ⟨[[{ inlineData := some "AAAA" }, { inlineData := some "BBBB" }]]⟩).image
        = some "data:image/png;base64,BBBB" ∧
      ("data:image/png;base64,BBBB" : String) ≠ "data:image/png;base64,AAAA" := by
  constructor
  · rfl
  · decide

/-- C1 (amended): the shared response normalization selects the LAST part
carrying binary payload of the first candidate as the image result and the
LAST part carrying nonempty text as the text result; earlier matching
parts are overwritten, and the fixed fallback message appears only when no
part carries either payload. -/
theorem processApiResponse_last_wins (parts : List ApiPart) (rest : List (List ApiPart)) :
    processApiResponse ⟨parts :: rest⟩ =
      { image := lastImageResult parts,
        text := if lastImageResult parts = none ∧ lastTextResult parts = none
                then some noContentMsg else lastTextResult parts } :=
  processApiResponse_char parts rest

/-- C2: a response with only a nonempty text part normalizes to that text
with no image; a response with only a binary part normalizes to a PNG data
URL with no text, whatever MIME type the service declared; a response with
neither an image-bearing nor a text-bearing part normalizes to the fixed
no-content message. -/
theorem processApiResponse_single_modality :
    (∀ t : String, t ≠ "" →
        processApiResponse ⟨[[{ inlineData := none, text := some t }]]⟩ =
          { image := none, text := some t }) ∧
      (∀ d : String,
        processApiResponse ⟨[[{ inlineData := some d, text := none }]]⟩ =
          { image := some ("data:image/png;base64," ++ d), text := none }) ∧
      (∀ r : ApiResponse,
        (∀ ps ∈ r.candidates, ∀ p ∈ ps, p.inlineData = none ∧ partTextValue p = none) →
          processApiResponse r = { image := none, text := some noContentMsg }) := by
  refine ⟨?_, ?_, ?_⟩
  · intro t ht
    simp [processApiResponse, processParts, partImageValue, partTextValue, ht]
  · intro d
    simp [processApiResponse, processParts, partImageValue, partTextValue]
  · intro r h
    obtain ⟨cs⟩ := r
    cases cs with
    | nil => rfl
    | cons parts rest =>
      have h1 : lastImageResult parts = none :=
        lastImageResult_none parts fun p hp => (h parts (List.mem_cons_self _ _) p hp).1
      have h2 : lastTextResult parts = none :=
        lastTextResult_none parts fun p hp => (h parts (List.mem_cons_self _ _) p hp).2
      rw [processApiResponse_char]
      simp [h1, h2]

/-- Witness for C2 at concrete responses. -/
theorem processApiResponse_single_modality_witness :
    processApiResponse ⟨[[{ inlineData := none, text := some "hello" }]]⟩ =
        { image := none, text := some "hello" } ∧
      processApiResponse ⟨[[{ inlineData := some "QUJD", text := none }]]⟩ =
        { image := some ("data:image/png;base64," ++ "QUJD"), text := none } ∧
      processApiResponse ⟨[[{ inlineData := none, text := some "" }], []]⟩ =
        { image := none, text := some noContentMsg } :=
  ⟨processApiResponse_single_modality.1 "hello" (by decide),
   processApiResponse_single_modality.2.1 "QUJD",
   processApiResponse_single_modality.2.2
     ⟨[[{ inlineData := none, text := some "" }], []]⟩ (by decide)⟩

/-- A value thrown in JavaScript: an Error instance carrying a message, or
any other value, which has no message field. -/
inductive JsThrown where
  | error (message : String)
  | other
deriving DecidableEq, Repr

/-- What every operation re-raises from its catch block: a plain Error
holding only a message string, so the class of the original failure is not
preserved. -/
structure PlainError where
  message : String
deriving DecidableEq, Repr

/-- The message chosen by the shared catch pattern: the message of the
thrown value when it is an Error instance, else the fixed default of the
operation. -/
def jsErrMessage (defaultMsg : String) : JsThrown → String
  | .error m => m
  | .other => defaultMsg

/-- The shared try/catch wrapper: a successful body is returned, a thrown
value is re-raised as a plain Error with the extracted message. -/
def runCatch (defaultMsg : String) : Except JsThrown α → Except PlainError α
  | .ok a => .ok a
  | .error e => .error ⟨jsErrMessage defaultMsg e⟩

/-- Whitespace in the sense of the JavaScript trim method (the common
characters: space, tab, line feed, carriage return, vertical tab, form
feed and no-break space). -/
def isJsWhitespace (c : Char) : Bool :=
  c = ' ' || c = '\t' || c = '\n' || c = '\r' || c = '\u000B' || c = '\u000C' || c = ' '

/-- Model of the JavaScript trim method: drop whitespace from both ends. -/
def jsTrim (s : String) : String :=
  ⟨((s.data.dropWhile isJsWhitespace).reverse.dropWhile isJsWhitespace).reverse⟩

theorem jsTrim_of_all_whitespace (s : String)
    (h : ∀ c ∈ s.data, isJsWhitespace c) : jsTrim s = "" := by
  unfold jsTrim
  rw [List.dropWhile_eq_nil_iff.mpr h]
  rfl

/-- An image-like source object handed to the transport encoder: a File or
a plain Blob. Both carry a type property (possibly the empty string); the
data component stands for the base64 payload the FileReader produces from
the object bytes. -/
inductive ImageSource where
  | file (fileType : String) (base64Data : String)
  | blob (blobType : String) (base64Data : String)
deriving DecidableEq, Repr

/-- Base64 payload the FileReader yields for the source (the text after
the comma of the reader data URL). -/
def ImageSource.base64Data : ImageSource → String
  | .file _ d => d
  | .blob _ d => d

/-- The type property carried by the source object. -/
def ImageSource.sourceType : ImageSource → String
  | .file t _ => t
  | .blob t _ => t

/-- The instanceof File test. -/
def ImageSource.isFile : ImageSource → Bool
  | .file _ _ => true
  | .blob _ _ => false

/-- One part of a request payload: inline binary data with a MIME label,
or text. -/
inductive ReqPart where
  | inlineData (data : String) (mimeType : String)
  | text (s : String)
deriving DecidableEq, Repr

/-- JavaScript string disjunction: the left operand when truthy
(nonempty), else the right operand. -/
def jsOrString (a : Option String) (b : String) : String :=
  match a with
  | some s => if s = "" then b else s
  | none => b

/-- Embedding of fileToGenerativePart: the FileReader payload labeled with
the override when truthy, else with the type property when the source is a
File instance, else with image/png. -/
def fileToGenerativePart (file : ImageSource) (mimeType : Option String := none) : ReqPart :=
  .inlineData file.base64Data
    (jsOrString mimeType (if file.isFile then file.sourceType else "image/png"))

/-- MIME label of an encoded part (the inlineData case). -/
def ReqPart.partMime : ReqPart → Option String
  | .inlineData _ m => some m
  | .text _ => none

/-- C9 (counterexample): a Blob whose type property is image/jpeg carries
a MIME type, yet with no override the encoder labels the part image/png,
not image/jpeg as the claim states. -/
theorem fileToGenerativePart_blob_type_counterexample :
    (fileToGenerativePart (ImageSource.blob "image/jpeg" "eHl6") none).partMime
        = some "image/png" ∧
      ("image/png" : String) ≠ "image/jpeg" := by
  constructor
  · rfl
  · decide

/-- C9 (amended): with no override, the encoder labels the part with the
type property only when the source is a File instance (even when that
property is empty), and with image/png for any Blob regardless of the type
the Blob carries; a nonempty override is always used, while an empty
override string is ignored and the no-override rule applies. -/
theorem fileToGenerativePart_mime_rule (src : ImageSource) :
    ((fileToGenerativePart src none).partMime
        = some (if src.isFile then src.sourceType else "image/png")) ∧
      (∀ m : String, m ≠ "" →
        (fileToGenerativePart src (some m)).partMime = some m) ∧
      ((fileToGenerativePart src (some "")).partMime
        = some (if src.isFile then src.sourceType else "image/png")) := by
  refine ⟨rfl, ?_, rfl⟩
  intro m hm
  simp [fileToGenerativePart, jsOrString, hm, ReqPart.partMime]

/-- Witness for C9 (amended) at concrete sources. -/
theorem fileToGenerativePart_mime_rule_witness :
    ((fileToGenerativePart (ImageSource.file "image/webp" "QQ") none).partMime
        = some (if (ImageSource.file "image/webp" "QQ").isFile
                then (ImageSource.file "image/webp" "QQ").sourceType else "image/png")) ∧
      (fileToGenerativePart (ImageSource.blob "image/jpeg" "QQ") (some "text/plain")).partMime
        = some "text/plain" :=
  ⟨(fileToGenerativePart_mime_rule (ImageSource.file "image/webp" "QQ")).1,
   (fileToGenerativePart_mime_rule (ImageSource.blob "image/jpeg" "QQ")).2.1
     "text/plain" (by decide)⟩

/-- Model of the JavaScript string split method for a one-character
separator, over the character list of the string. -/
def jsSplitList (sep : Char) : List Char → List (List Char)
  | [] => [[]]
  | c :: cs =>
    if c = sep then [] :: jsSplitList sep cs
    else
      match jsSplitList sep cs with
      | [] => [[c]]
      | r :: rs => (c :: r) :: rs

theorem jsSplitList_ne_nil (sep : Char) (l : List Char) : jsSplitList sep l ≠ [] := by
  cases l with
  | nil => simp [jsSplitList]
  | cons c cs =>
    by_cases h : c = sep
    · simp [jsSplitList, h]
    · simp only [jsSplitList, if_neg h]
      cases jsSplitList sep cs <;> simp

theorem jsSplitList_no_sep (sep : Char) (l : List Char) (h : sep ∉ l) :
    jsSplitList sep l = [l] := by
  induction l with
  | nil => rfl
  | cons c cs ih =>
    have hc : ¬ c = sep := fun hc => h (hc ▸ List.mem_cons_self c cs)
    have hcs := ih fun hm => h (List.mem_cons_of_mem c hm)
    simp [jsSplitList, hc, hcs]

theorem jsSplitList_append_sep (sep : Char) (l₁ l₂ : List Char) (h : sep ∉ l₁) :
    jsSplitList sep (l₁ ++ sep :: l₂) = l₁ :: jsSplitList sep l₂ := by
  induction l₁ with
  | nil => simp [jsSplitList]
  | cons c cs ih =>
    have hc : ¬ c = sep := fun hc => h (hc ▸ List.mem_cons_self c cs)
    have hcs := ih fun hm => h (List.mem_cons_of_mem c hm)
    simp [jsSplitList, hc, hcs]

/-- JavaScript split with a one-character separator, as a String map. -/
def jsSplit (sep : Char) (s : String) : List String :=
  (jsSplitList sep s.data).map fun l => ⟨l⟩

/-- Model of an HTML canvas: its dimensions together with the RGBA value
of every pixel coordinate. -/
structure JsCanvas where
  width : Nat
  height : Nat
  pixel : Nat → Nat → Nat × Nat × Nat × Nat

/-- Model of document.createElement for a canvas: the default surface,
every pixel transparent black per the HTML specification. -/
def createElementCanvas : JsCanvas :=
  { width := 300, height := 150, pixel := fun _ _ => (0, 0, 0, 0) }

/-- Model of the 2d-context clearRect call: pixels inside the rectangle
become transparent black. -/
def JsCanvas.clearRect (c : JsCanvas) (x y w h : Nat) : JsCanvas :=
  { c with
    pixel := fun i j =>
      if x ≤ i ∧ i < x + w ∧ y ≤ j ∧ j < y + h then (0, 0, 0, 0) else c.pixel i j }

/-- Model of the browser PNG encoder behind toDataURL: base64 text whose
exact bytes are browser internals; the model keeps a signature-like head
plus a body determined by the canvas dimensions, and contains no comma,
the property the data URL stripping step relies on (base64 text never
contains a comma). -/
def pngBase64 (c : JsCanvas) : String :=
  ⟨'i' :: 'V' :: 'B' :: 'O' :: 'R' ::
    (List.replicate c.width 'A' ++ List.replicate c.height 'B')⟩

theorem pngBase64_no_comma (c : JsCanvas) : ',' ∉ (pngBase64 c).data := by
  simp [pngBase64, List.mem_replicate]

/-- Model of toDataURL with the image/png argument. -/
def JsCanvas.toDataURL (c : JsCanvas) : String :=
  "data:image/png;base64," ++ pngBase64 c

/-- Decimal digit value of a character, none for a non-digit. -/
def charDigit (c : Char) : Option Nat :=
  if 48 ≤ c.toNat ∧ c.toNat ≤ 57 then some (c.toNat - 48) else none

/-- Model of JavaScript Number on the integral numeral strings the claims
quantify over: the decimal value of a nonempty digit sequence, none where
Number yields NaN. -/
def parseNatChars (l : List Char) : Option Nat :=
  match l with
  | [] => none
  | _ =>
    l.foldl
      (fun acc c =>
        match acc, charDigit c with
        | some n, some d => some (n * 10 + d)
        | _, _ => none)
      (some 0)

/-- Model of JavaScript Number on a string. -/
def jsNumber (s : String) : Option Nat :=
  parseNatChars s.data

/-- Assignment of a parsed JavaScript number to a canvas dimension:
integral values are kept, while undefined and non-numeric values coerce to
zero per WebIDL. -/
def jsNumberAssign (s : Option String) : Nat :=
  match s with
  | some t => (jsNumber t).getD 0
  | none => 0

/-- The canvas built by createBlankCanvas: dimensions are the two colon
separated components of the ratio scaled by 100, then the whole surface is
cleared. -/
def createBlankCanvasCanvas (aspectRatio : String) : JsCanvas :=
  let parts := jsSplit ':' aspectRatio
  let width := jsNumberAssign parts[0]?
  let height := jsNumberAssign parts[1]?
  JsCanvas.clearRect
    { createElementCanvas with width := width * 100, height := height * 100 }
    0 0 (width * 100) (height * 100)

/-- Embedding of createBlankCanvas: encode the cleared canvas as a PNG
data URL and keep only the text after the first comma. -/
def createBlankCanvas (aspectRatio : String) : String :=
  ((jsSplit ',' (createBlankCanvasCanvas aspectRatio).toDataURL)[1]?).getD ""

theorem data_url_png_head :
    ("data:image/png;base64,").data = "data:image/png;base64".data ++ [','] := by
  decide

theorem comma_not_mem_head : (',' : Char) ∉ "data:image/png;base64".data := by
  decide

theorem createBlankCanvas_strip (aspectRatio : String) :
    createBlankCanvas aspectRatio = pngBase64 (createBlankCanvasCanvas aspectRatio) := by
  unfold createBlankCanvas JsCanvas.toDataURL jsSplit
  rw [String.data_append, data_url_png_head, List.append_assoc, List.singleton_append,
    jsSplitList_append_sep ',' _ _ comma_not_mem_head,
    jsSplitList_no_sep ',' _ (pngBase64_no_comma (createBlankCanvasCanvas aspectRatio))]
  rfl

/-- C6: for every aspect ratio string whose colon separated components are
numerals of positive W and H, the seed canvas is exactly 100W by 100H,
every pixel of it is fully transparent, and the returned string is the
base64 PNG payload with the data URL prefix stripped. -/
theorem createBlankCanvas_spec (s : String) (W H : Nat)
    (hs : (jsSplit ':' s).map jsNumber = [some W, some H])
    (_hW : 0 < W) (_hH : 0 < H) :
    (createBlankCanvasCanvas s).width = 100 * W ∧
      (createBlankCanvasCanvas s).height = 100 * H ∧
      (∀ x y, (createBlankCanvasCanvas s).pixel x y = (0, 0, 0, 0)) ∧
      createBlankCanvas s = pngBase64 (createBlankCanvasCanvas s) := by
  have hparts : ∃ a b, jsSplit ':' s = [a, b]
      ∧ jsNumber a = some W ∧ jsNumber b = some H := by
    cases hsp : jsSplit ':' s with
    | nil => rw [hsp] at hs; simp at hs
    | cons a l =>
      cases l with
      | nil => rw [hsp] at hs; simp at hs
      | cons b l2 =>
        cases l2 with
        | nil =>
          rw [hsp] at hs
          simp only [List.map_cons, List.map_nil, List.cons.injEq, and_true] at hs
          exact ⟨a, b, rfl, hs.1, hs.2⟩
        | cons x l3 => rw [hsp] at hs; simp at hs
  obtain ⟨a, b, hsp, ha, hb⟩ := hparts
  refine ⟨?_, ?_, ?_, createBlankCanvas_strip s⟩
  · simp [createBlankCanvasCanvas, hsp, jsNumberAssign, ha, JsCanvas.clearRect, Nat.mul_comm]
  · simp [createBlankCanvasCanvas, hsp, jsNumberAssign, hb, JsCanvas.clearRect, Nat.mul_comm]
  · intro x y
    simp [createBlankCanvasCanvas, hsp, JsCanvas.clearRect, createElementCanvas]

/-- Witness for C6 at the concrete ratio 16:9. -/
theorem createBlankCanvas_spec_witness :
    (createBlankCanvasCanvas "16:9").width = 100 * 16 ∧
      (createBlankCanvasCanvas "16:9").height = 100 * 9 ∧
      (createBlankCanvasCanvas "16:9").pixel 5 7 = (0, 0, 0, 0) ∧
      createBlankCanvas "16:9" = pngBase64 (createBlankCanvasCanvas "16:9") :=
  ⟨(createBlankCanvas_spec "16:9" 16 9 (by decide) (by decide) (by decide)).1,
   (createBlankCanvas_spec "16:9" 16 9 (by decide) (by decide) (by decide)).2.1,
   (createBlankCanvas_spec "16:9" 16 9 (by decide) (by decide) (by decide)).2.2.1 5 7,
   (createBlankCanvas_spec "16:9" 16 9 (by decide) (by decide) (by decide)).2.2.2⟩

/-- Default catch message of editImage and editImageWithMask. -/
def editImageDefaultMsg : String :=
  "An unexpected error occurred while communicating with the AI."

/-- Default catch message of getCreativeIdeas and generatePromptIdeas. -/
def ideasDefaultMsg : String :=
  "An unexpected error occurred while generating ideas."

/-- Default catch message of generateImages. -/
def generateImagesDefaultMsg : String :=
  "An unexpected error occurred while generating images."

/-- Default catch message of generateImageWithReference. -/
def generateRefDefaultMsg : String :=
  "An unexpected error occurred while generating the image."

/-- Error message for a response bearing zero generated images. -/
def noImagesMsg : String :=
  "The AI did not generate any images. This might be due to the safety policy."

/-- A JSON value as produced by JSON.parse. -/
inductive Json where
  | null
  | bool (b : Bool)
  | num (n : Int)
  | str (s : String)
  | arr (elems : List Json)
  | obj (fields : List (String × Json))

/-- JavaScript truthiness of a JSON value: null, false, zero and the empty
string are falsy; every array and object reference is truthy. -/
def jsonTruthy : Json → Bool
  | .null => false
  | .bool b => b
  | .num n => n != 0
  | .str s => s != ""
  | .arr _ => true
  | .obj _ => true

/-- Model of the member access for the ideas key: the field of an object
when present, undefined on other non-null values, and a thrown TypeError
on null. -/
def jsonMemberIdeas : Json → Except JsThrown (Option Json)
  | .null => .error (.error "Cannot read properties of null (reading ideas)")
  | .obj fields => .ok ((fields.find? fun kv => kv.1 = "ideas").map Prod.snd)
  | _ => .ok none

/-- A response consumed through the text accessor of the SDK. -/
structure TextResponse where
  text : Option String
deriving DecidableEq, Repr

/-- Embedding of editImage: encode the image, submit it with the prompt
and normalize the response; the shared catch re-raises any thrown value as
a plain Error. -/
def editImage (imageFile : ImageSource) (prompt : String)
    (call : List ReqPart → Except JsThrown ApiResponse) : Except PlainError GenResult :=
  runCatch editImageDefaultMsg
    ((call [fileToGenerativePart imageFile, ReqPart.text prompt]).map processApiResponse)

/-- Embedding of editImageWithMask: as editImage with the mask blob
re-encoded as PNG between image and prompt. -/
def editImageWithMask (imageFile maskBlob : ImageSource) (prompt : String)
    (call : List ReqPart → Except JsThrown ApiResponse) : Except PlainError GenResult :=
  runCatch editImageDefaultMsg
    ((call
        [fileToGenerativePart imageFile,
         fileToGenerativePart maskBlob (some "image/png"),
         ReqPart.text prompt]).map
      processApiResponse)

/-- The fixed instruction text of getCreativeIdeas. -/
def getCreativeIdeasInstruction : String :=
  "You are a creative photo editing assistant. Analyze the following image and provide 3-4 distinct, creative ideas for how to edit it. Each idea should be a short, actionable sentence that can be used as a prompt for an AI image editor. Return the ideas as a JSON array of strings."

/-- Try block of getCreativeIdeas: submit instruction and image, parse the
JSON text of the response and return the ideas value when truthy, else
null; JSON.parse is passed in as the platform parser. -/
def getCreativeIdeasBody (imageFile : ImageSource)
    (jsonParse : String → Except JsThrown Json)
    (call : List ReqPart → Except JsThrown TextResponse) : Except JsThrown (Option Json) :=
  match call [ReqPart.text getCreativeIdeasInstruction, fileToGenerativePart imageFile] with
  | .error e => .error e
  | .ok resp =>
    match resp.text with
    | none => .ok none
    | some s =>
      if s = "" then .ok none
      else
        match jsonParse s with
        | .error e => .error e
        | .ok j =>
          match jsonMemberIdeas j with
          | .error e => .error e
          | .ok none => .ok none
          | .ok (some v) => .ok (if jsonTruthy v then some v else none)

/-- Embedding of getCreativeIdeas. -/
def getCreativeIdeas (imageFile : ImageSource)
    (jsonParse : String → Except JsThrown Json)
    (call : List ReqPart → Except JsThrown TextResponse) : Except PlainError (Option Json) :=
  runCatch ideasDefaultMsg (getCreativeIdeasBody imageFile jsonParse call)

/-- The request record submitted by generateImages. -/
structure GenImagesRequest where
  model : String
  prompt : String
  numberOfImages : Nat
  outputMimeType : String
  aspectRatio : String
deriving DecidableEq, Repr

/-- A response of the image-generation endpoint: the imageBytes of each
generated image, with the whole list possibly absent. -/
structure GenImagesResponse where
  generatedImages : Option (List String)
deriving DecidableEq, Repr

/-- The concrete request generateImages submits. -/
def genImagesRequest (prompt : String) (numberOfImages : Nat) (aspectRatio : String) :
    GenImagesRequest :=
  { model := "imagen-4.0-generate-001", prompt := prompt,
    numberOfImages := numberOfImages, outputMimeType := "image/png",
    aspectRatio := aspectRatio }

/-- Try block of generateImages. The Bool records whether the endpoint was
invoked: the empty-prompt guard throws before any request is built. -/
def generateImagesBody (prompt : String) (numberOfImages : Nat) (aspectRatio : String)
    (call : GenImagesRequest → Except JsThrown GenImagesResponse) :
    Bool × Except JsThrown (List String) :=
  if jsTrim prompt = "" then
    (false, .error (.error "Prompt cannot be empty."))
  else
    match call (genImagesRequest prompt numberOfImages aspectRatio) with
    | .error e => (true, .error e)
    | .ok resp =>
      match resp.generatedImages with
      | none => (true, .error (.error noImagesMsg))
      | some imgs =>
        if imgs.length = 0 then (true, .error (.error noImagesMsg))
        else (true, .ok (imgs.map fun img => "data:image/png;base64," ++ img))

/-- Embedding of generateImages with the shared catch applied. -/
def generateImages (prompt : String) (numberOfImages : Nat) (aspectRatio : String)
    (call : GenImagesRequest → Except JsThrown GenImagesResponse) :
    Bool × Except PlainError (List String) :=
  let r := generateImagesBody prompt numberOfImages aspectRatio call
  (r.1, runCatch generateImagesDefaultMsg r.2)

/-- The instruction text of generateImageWithReference around the caller
prompt. -/
def refInstruction (prompt : String) : String :=
  "Please fill the provided blank transparent canvas with a new image. Use the other reference images as strong inspiration for the style, mood, and subject matter. Follow this specific instruction for the content: \"" ++ prompt ++ "\". The final output must be a single, complete image that perfectly fits the dimensions of the initial blank canvas."

/-- The part sequence generateImageWithReference submits: seed canvas,
then the encoded reference images in input order, then the instruction. -/
def generateImageWithReferenceParts (files : List ImageSource) (prompt aspectRatio : String) :
    List ReqPart :=
  ReqPart.inlineData (createBlankCanvas aspectRatio) "image/png"
    :: ((files.map fun f => fileToGenerativePart f) ++ [ReqPart.text (refInstruction prompt)])

/-- Response handling of generateImageWithReference: a produced image is
returned alone, else the response text (or a fixed message) is thrown. -/
def refResponseHandler : Except JsThrown ApiResponse → Except JsThrown (List String)
  | .error e => .error e
  | .ok resp =>
    let result := processApiResponse resp
    match result.image with
    | some img => .ok [img]
    | none =>
      .error (.error (jsOrString result.text
        "The AI could not generate an image from your request."))

/-- Try block of generateImageWithReference: input guards, then submit the
part sequence and handle the response. -/
def generateImageWithReferenceBody (files : List ImageSource) (prompt aspectRatio : String)
    (call : List ReqPart → Except JsThrown ApiResponse) : Except JsThrown (List String) :=
  if files.isEmpty then .error (.error "Please provide at least one reference image.")
  else if jsTrim prompt = "" then .error (.error "Prompt cannot be empty.")
  else refResponseHandler (call (generateImageWithReferenceParts files prompt aspectRatio))

/-- Embedding of generateImageWithReference with the shared catch. -/
def generateImageWithReference (files : List ImageSource) (prompt aspectRatio : String)
    (call : List ReqPart → Except JsThrown ApiResponse) : Except PlainError (List String) :=
  runCatch generateRefDefaultMsg (generateImageWithReferenceBody files prompt aspectRatio call)

/-- The structured form data of generatePromptIdeas. -/
structure IdeasFormData where
  productName : String
  productPosition : String
  additionalInfo : String
deriving DecidableEq, Repr

/-- Truthiness of the chained disjunction of the three form fields. -/
def hasTextData (fd : IdeasFormData) : Bool :=
  fd.productName ≠ "" || fd.productPosition ≠ "" || fd.additionalInfo ≠ ""

/-- The image-only instruction template of generatePromptIdeas. -/
def imageOnlyIdeasTemplate : String :=
  "\n        You are an expert prompt writer for an AI image generator.\n        Analyze the following image(s) closely. Based *only* on the visual information (style, subject, composition, lighting, colors), generate 4 distinct, creative, and detailed prompt ideas in English.\n        The prompts should describe how to create a similar or inspired image.\n        Return the ideas as a JSON object with a single key \"ideas\" which is an array of 4 strings.\n      "

/-- The form-driven instruction template of generatePromptIdeas with the
three fields interpolated. -/
def formIdeasTemplate (fd : IdeasFormData) : String :=
  "\n        You are an expert prompt writer for an AI image generator, specializing in stunning product photography for small businesses (UMKM).\n        Based on the following information, generate 4 distinct, creative, and detailed prompt ideas.\n        The prompts should be in English.\n\n        Product Name: \""
    ++ fd.productName
    ++ "\"\n        Product Position/Action: \""
    ++ fd.productPosition
    ++ "\"\n        Additional Details (style, background, mood, colors): \""
    ++ fd.additionalInfo
    ++ "\"\n\n        Return the ideas as a JSON object with a single key \"ideas\" which is an array of 4 strings.\n      "

/-- The instruction text generatePromptIdeas chooses: the image-only
template exactly when at least one reference image is given and no form
field is truthy. -/
def promptIdeasText (fd : IdeasFormData) (referenceImages : List ImageSource) : String :=
  if 0 < referenceImages.length ∧ hasTextData fd = false then imageOnlyIdeasTemplate
  else formIdeasTemplate fd

/-- The part sequence generatePromptIdeas submits: the instruction text
followed by the encoded reference images. -/
def generatePromptIdeasParts (fd : IdeasFormData) (referenceImages : List ImageSource) :
    List ReqPart :=
  ReqPart.text (promptIdeasText fd referenceImages)
    :: (referenceImages.map fun f => fileToGenerativePart f)

/-- The fixed invalid-ideas error message of generatePromptIdeas. -/
def invalidIdeasMsg : String :=
  "The AI did not return valid prompt ideas. Please try again."

/-- Handling of the generatePromptIdeas response text: parse the JSON when
the text is truthy and return the ideas field when it is a truthy nonempty
array, else throw the fixed invalid-ideas error; a parse failure or a null
receiver propagates as its own thrown error. -/
def ideasResponseHandler (jsonParse : String → Except JsThrown Json)
    (respText : Option String) : Except JsThrown (List Json) :=
  match respText with
  | none => .error (.error invalidIdeasMsg)
  | some s =>
    if s = "" then .error (.error invalidIdeasMsg)
    else
      match jsonParse s with
      | .error e => .error e
      | .ok j =>
        match jsonMemberIdeas j with
        | .error e => .error e
        | .ok none => .error (.error invalidIdeasMsg)
        | .ok (some v) =>
          if jsonTruthy v then
            match v with
            | .arr xs => if 0 < xs.length then .ok xs else .error (.error invalidIdeasMsg)
            | _ => .error (.error invalidIdeasMsg)
          else .error (.error invalidIdeasMsg)

/-- Try block of generatePromptIdeas: the input guard, then submit the
parts and handle the response text. -/
def generatePromptIdeasBody (fd : IdeasFormData) (referenceImages : List ImageSource)
    (jsonParse : String → Except JsThrown Json)
    (call : List ReqPart → Except JsThrown TextResponse) : Except JsThrown (List Json) :=
  if hasTextData fd = false ∧ referenceImages.length = 0 then
    .error (.error "Please provide some information or a reference image to generate ideas.")
  else
    match call (generatePromptIdeasParts fd referenceImages) with
    | .error e => .error e
    | .ok resp => ideasResponseHandler jsonParse resp.text

/-- Embedding of generatePromptIdeas with the shared catch. -/
def generatePromptIdeas (fd : IdeasFormData) (referenceImages : List ImageSource)
    (jsonParse : String → Except JsThrown Json)
    (call : List ReqPart → Except JsThrown TextResponse) : Except PlainError (List Json) :=
  runCatch ideasDefaultMsg (generatePromptIdeasBody fd referenceImages jsonParse call)

/-- Whether a request part is a text part. -/
def ReqPart.isTextPart : ReqPart → Bool
  | .text _ => true
  | .inlineData _ _ => false

/-- Whether an operation result is an error. -/
def isErrorResult : Except PlainError α → Bool
  | .ok _ => false
  | .error _ => true

theorem countP_text_map_zero (files : List ImageSource) :
    (files.map fun f => fileToGenerativePart f).countP ReqPart.isTextPart = 0 := by
  rw [List.countP_eq_zero]
  intro p hp
  obtain ⟨f, _, rfl⟩ := List.mem_map.mp hp
  simp [fileToGenerativePart, ReqPart.isTextPart]

/-- C3: under the input guards, generateImageWithReference submits the
seed canvas at position 0, the encoded reference images at positions 1..n
in input order, and exactly one text part, the instruction, at the end;
the operation is exactly the response handler applied to the call on this
sequence. -/
theorem generateImageWithReference_part_order (files : List ImageSource)
    (prompt aspectRatio : String) (hf : files ≠ []) (hp : jsTrim prompt ≠ "") :
    (generateImageWithReferenceParts files prompt aspectRatio).length = files.length + 2 ∧
      (generateImageWithReferenceParts files prompt aspectRatio)[0]?
        = some (ReqPart.inlineData (createBlankCanvas aspectRatio) "image/png") ∧
      (∀ i, i < files.length →
        (generateImageWithReferenceParts files prompt aspectRatio)[i + 1]?
          = (files[i]?).map fun f => fileToGenerativePart f) ∧
      (generateImageWithReferenceParts files prompt aspectRatio).getLast?
        = some (ReqPart.text (refInstruction prompt)) ∧
      (generateImageWithReferenceParts files prompt aspectRatio).countP ReqPart.isTextPart = 1 ∧
      (∀ call, generateImageWithReference files prompt aspectRatio call
        = runCatch generateRefDefaultMsg
            (refResponseHandler
              (call (generateImageWithReferenceParts files prompt aspectRatio)))) := by
  refine ⟨?_, ?_, ?_, ?_, ?_, ?_⟩
  · simp [generateImageWithReferenceParts]
  · simp [generateImageWithReferenceParts]
  · intro i hi
    have hi2 : i < (files.map fun f => fileToGenerativePart f).length := by
      simpa using hi
    simp [generateImageWithReferenceParts, List.getElem?_append, hi2]
    intro hle
    exact absurd hle (by omega)
  · rw [generateImageWithReferenceParts, ← List.cons_append, List.getLast?_concat]
  · rw [generateImageWithReferenceParts, List.countP_cons, List.countP_append,
      countP_text_map_zero]
    simp [ReqPart.isTextPart, List.countP_cons]
  · intro call
    have hfe : files.isEmpty = false := by
      cases files with
      | nil => exact absurd rfl hf
      | cons a l => rfl
    simp [generateImageWithReference, generateImageWithReferenceBody, hfe, hp]

/-- Witness for C3 at a concrete file list and prompt. -/
theorem generateImageWithReference_part_order_witness :
    (generateImageWithReferenceParts [ImageSource.file "image/png" "QQ"] "a cat" "1:1").length
        = 1 + 2 ∧
      (generateImageWithReferenceParts [ImageSource.file "image/png" "QQ"] "a cat" "1:1")[0]?
        = some (ReqPart.inlineData (createBlankCanvas "1:1") "image/png") ∧
      (generateImageWithReferenceParts [ImageSource.file "image/png" "QQ"] "a cat" "1:1")[1]?
        = (([ImageSource.file "image/png" "QQ"] : List ImageSource)[0]?).map
            (fun f => fileToGenerativePart f) ∧
      (generateImageWithReferenceParts [ImageSource.file "image/png" "QQ"] "a cat" "1:1").getLast?
        = some (ReqPart.text (refInstruction "a cat")) ∧
      (generateImageWithReferenceParts
          [ImageSource.file "image/png" "QQ"] "a cat" "1:1").countP ReqPart.isTextPart = 1 ∧
      generateImageWithReference [ImageSource.file "image/png" "QQ"] "a cat" "1:1"
          (fun _ => .error JsThrown.other)
        = runCatch generateRefDefaultMsg
            (refResponseHandler
              ((fun _ => .error JsThrown.other)
                (generateImageWithReferenceParts
                  [ImageSource.file "image/png" "QQ"] "a cat" "1:1"))) :=
  ⟨(generateImageWithReference_part_order [ImageSource.file "image/png" "QQ"] "a cat" "1:1"
      (by decide) (by decide)).1,
   (generateImageWithReference_part_order [ImageSource.file "image/png" "QQ"] "a cat" "1:1"
      (by decide) (by decide)).2.1,
   (generateImageWithReference_part_order [ImageSource.file "image/png" "QQ"] "a cat" "1:1"
      (by decide) (by decide)).2.2.1 0 (by decide),
   (generateImageWithReference_part_order [ImageSource.file "image/png" "QQ"] "a cat" "1:1"
      (by decide) (by decide)).2.2.2.1,
   (generateImageWithReference_part_order [ImageSource.file "image/png" "QQ"] "a cat" "1:1"
      (by decide) (by decide)).2.2.2.2.1,
   (generateImageWithReference_part_order [ImageSource.file "image/png" "QQ"] "a cat" "1:1"
      (by decide) (by decide)).2.2.2.2.2 (fun _ => .error JsThrown.other)⟩

/-- C4: with a nontrivial prompt, when the endpoint answers with a list of
n images the operation returns exactly those n images as PNG data URLs in
the service order, and with an empty or absent image list it fails with
the fixed no-images error. -/
theorem generateImages_results (prompt : String) (n : Nat) (ar : String)
    (hp : jsTrim prompt ≠ "") :
    (∀ (call : GenImagesRequest → Except JsThrown GenImagesResponse) (imgs : List String),
        call (genImagesRequest prompt n ar) = .ok ⟨some imgs⟩ → imgs ≠ [] →
          (generateImages prompt n ar call).2
              = .ok (imgs.map fun b => "data:image/png;base64," ++ b) ∧
            (imgs.map fun b => "data:image/png;base64," ++ b).length = imgs.length) ∧
      (∀ call, call (genImagesRequest prompt n ar) = .ok ⟨some []⟩ →
        (generateImages prompt n ar call).2 = .error ⟨noImagesMsg⟩) ∧
      (∀ call, call (genImagesRequest prompt n ar) = .ok ⟨none⟩ →
        (generateImages prompt n ar call).2 = .error ⟨noImagesMsg⟩) := by
  refine ⟨?_, ?_, ?_⟩
  · intro call imgs hc hne
    have hl : imgs.length ≠ 0 := by simpa [List.length_eq_zero] using hne
    exact ⟨by simp [generateImages, generateImagesBody, hp, hc, hl, runCatch], by simp⟩
  · intro call hc
    simp [generateImages, generateImagesBody, hp, hc, runCatch, jsErrMessage]
  · intro call hc
    simp [generateImages, generateImagesBody, hp, hc, runCatch, jsErrMessage]

/-- Witness for C4 at the prompt a red apple with two returned images and
with zero returned images. -/
theorem generateImages_results_witness :
    (generateImages "a red apple" 2 "1:1" (fun _ => .ok ⟨some ["QUJD", "REVG"]⟩)).2
        = .ok (["QUJD", "REVG"].map fun b => "data:image/png;base64," ++ b) ∧
      (generateImages "a red apple" 2 "1:1" (fun _ => .ok ⟨some []⟩)).2
        = .error ⟨noImagesMsg⟩ :=
  ⟨((generateImages_results "a red apple" 2 "1:1" (by decide)).1
      (fun _ => .ok ⟨some ["QUJD", "REVG"]⟩) ["QUJD", "REVG"] rfl (by decide)).1,
   (generateImages_results "a red apple" 2 "1:1" (by decide)).2.1
      (fun _ => .ok ⟨some []⟩) rfl⟩

/-- C5: a prompt consisting only of whitespace makes generateImages fail
with the fixed empty-prompt error, and the endpoint is never invoked. -/
theorem generateImages_whitespace_no_call (prompt : String)
    (h : ∀ c ∈ prompt.data, isJsWhitespace c) (n : Nat) (ar : String)
    (call : GenImagesRequest → Except JsThrown GenImagesResponse) :
    (generateImages prompt n ar call).1 = false ∧
      (generateImages prompt n ar call).2 = .error ⟨"Prompt cannot be empty."⟩ := by
  have ht : jsTrim prompt = "" := jsTrim_of_all_whitespace prompt h
  exact ⟨by simp [generateImages, generateImagesBody, ht],
    by simp [generateImages, generateImagesBody, ht, runCatch, jsErrMessage]⟩

/-- Witness for C5 at a two-space prompt. -/
theorem generateImages_whitespace_no_call_witness :
    (generateImages "  " 3 "1:1" (fun _ => .ok ⟨none⟩)).1 = false ∧
      (generateImages "  " 3 "1:1" (fun _ => .ok ⟨none⟩)).2
        = .error ⟨"Prompt cannot be empty."⟩ :=
  generateImages_whitespace_no_call "  " (by decide) 3 "1:1" (fun _ => .ok ⟨none⟩)

/-- C7: whenever the underlying call throws, each operation re-raises a
plain Error whose message is the message of the thrown value when it is an
Error instance, else the fixed per-operation default string; the result
type carries only the message, so the original error class is lost. -/
theorem operations_error_wrapping (e : JsThrown) :
    (∀ (img : ImageSource) (prompt : String),
        editImage img prompt (fun _ => .error e)
          = .error ⟨match e with | .error m => m | .other => editImageDefaultMsg⟩) ∧
      (∀ (img mask : ImageSource) (prompt : String),
        editImageWithMask img mask prompt (fun _ => .error e)
          = .error ⟨match e with | .error m => m | .other => editImageDefaultMsg⟩) ∧
      (∀ (img : ImageSource) (jsonParse : String → Except JsThrown Json),
        getCreativeIdeas img jsonParse (fun _ => .error e)
          = .error ⟨match e with | .error m => m | .other => ideasDefaultMsg⟩) ∧
      (∀ (prompt : String) (n : Nat) (ar : String), jsTrim prompt ≠ "" →
        (generateImages prompt n ar (fun _ => .error e)).2
          = .error ⟨match e with | .error m => m | .other => generateImagesDefaultMsg⟩) ∧
      (∀ (files : List ImageSource) (prompt ar : String), files ≠ [] → jsTrim prompt ≠ "" →
        generateImageWithReference files prompt ar (fun _ => .error e)
          = .error ⟨match e with | .error m => m | .other => generateRefDefaultMsg⟩) ∧
      (∀ (fd : IdeasFormData) (imgs : List ImageSource)
          (jsonParse : String → Except JsThrown Json),
        ¬(hasTextData fd = false ∧ imgs.length = 0) →
        generatePromptIdeas fd imgs jsonParse (fun _ => .error e)
          = .error ⟨match e with | .error m => m | .other => ideasDefaultMsg⟩) := by
  refine ⟨?_, ?_, ?_, ?_, ?_, ?_⟩
  · intro img prompt
    cases e <;> simp [editImage, runCatch, jsErrMessage, Except.map]
  · intro img mask prompt
    cases e <;> simp [editImageWithMask, runCatch, jsErrMessage, Except.map]
  · intro img jsonParse
    cases e <;> simp [getCreativeIdeas, getCreativeIdeasBody, runCatch, jsErrMessage]
  · intro prompt n ar hp
    cases e <;> simp [generateImages, generateImagesBody, hp, runCatch, jsErrMessage]
  · intro files prompt ar hf hp
    have hfe : files.isEmpty = false := by
      cases files with
      | nil => exact absurd rfl hf
      | cons a l => rfl
    cases e <;>
      simp [generateImageWithReference, generateImageWithReferenceBody, refResponseHandler,
        hfe, hp, runCatch, jsErrMessage]
  · intro fd imgs jsonParse hg
    have hg2 : ¬(hasTextData fd = false ∧ imgs = []) := by
      simpa [List.length_eq_zero] using hg
    cases e <;>
      simp [generatePromptIdeas, generatePromptIdeasBody, hg2, runCatch, jsErrMessage]

/-- Witness for C7 with an Error-instance failure and a non-Error thrown
value at concrete inputs across the operations. -/
theorem operations_error_wrapping_witness :
    editImage (ImageSource.file "image/png" "QQ") "p" (fun _ => .error (JsThrown.error "boom"))
        = .error ⟨"boom"⟩ ∧
      editImageWithMask (ImageSource.file "image/png" "QQ") (ImageSource.blob "" "RR") "p"
          (fun _ => .error JsThrown.other) = .error ⟨editImageDefaultMsg⟩ ∧
      getCreativeIdeas (ImageSource.file "image/png" "QQ") (fun _ => .ok Json.null)
          (fun _ => .error (JsThrown.error "boom")) = .error ⟨"boom"⟩ ∧
      (generateImages "a cat" 1 "1:1" (fun _ => .error JsThrown.other)).2
        = .error ⟨generateImagesDefaultMsg⟩ ∧
      generateImageWithReference [ImageSource.file "image/png" "QQ"] "a cat" "1:1"
          (fun _ => .error (JsThrown.error "boom")) = .error ⟨"boom"⟩ ∧
      generatePromptIdeas ⟨"name", "", ""⟩ [] (fun _ => .ok Json.null)
          (fun _ => .error JsThrown.other) = .error ⟨ideasDefaultMsg⟩ :=
  ⟨(operations_error_wrapping (.error "boom")).1 (ImageSource.file "image/png" "QQ") "p",
   (operations_error_wrapping .other).2.1
     (ImageSource.file "image/png" "QQ") (ImageSource.blob "" "RR") "p",
   (operations_error_wrapping (.error "boom")).2.2.1
     (ImageSource.file "image/png" "QQ") (fun _ => .ok Json.null),
   (operations_error_wrapping .other).2.2.2.1 "a cat" 1 "1:1" (by decide),
   (operations_error_wrapping (.error "boom")).2.2.2.2.1
     [ImageSource.file "image/png" "QQ"] "a cat" "1:1" (by decide) (by decide),
   (operations_error_wrapping .other).2.2.2.2.2 ⟨"name", "", ""⟩ []
     (fun _ => .ok Json.null) (by decide)⟩

/-- C8: all three form fields empty together with at least one reference
image selects the image-only instruction template, and any nonempty form
field selects the form-driven template regardless of the image count; the
chosen template is the instruction text part the operation submits. -/
theorem generatePromptIdeas_template_choice :
    (∀ (fd : IdeasFormData) (imgs : List ImageSource),
        fd.productName = "" → fd.productPosition = "" → fd.additionalInfo = "" →
        imgs ≠ [] →
        (generatePromptIdeasParts fd imgs).head?
          = some (ReqPart.text imageOnlyIdeasTemplate)) ∧
      (∀ (fd : IdeasFormData) (imgs : List ImageSource),
        fd.productName ≠ "" ∨ fd.productPosition ≠ "" ∨ fd.additionalInfo ≠ "" →
        (generatePromptIdeasParts fd imgs).head?
          = some (ReqPart.text (formIdeasTemplate fd))) := by
  constructor
  · intro fd imgs h1 h2 h3 hne
    have hl : 0 < imgs.length := List.length_pos.mpr hne
    simp [generatePromptIdeasParts, promptIdeasText, hasTextData, h1, h2, h3, hl]
  · intro fd imgs h
    have ht : hasTextData fd = true := by
      unfold hasTextData
      rcases h with h | h | h <;> simp [h]
    simp [generatePromptIdeasParts, promptIdeasText, ht]

/-- Witness for C8 at an empty form with one image and a filled form with
no image. -/
theorem generatePromptIdeas_template_choice_witness :
    (generatePromptIdeasParts ⟨"", "", ""⟩ [ImageSource.file "image/png" "QQ"]).head?
        = some (ReqPart.text imageOnlyIdeasTemplate) ∧
      (generatePromptIdeasParts ⟨"mug", "", ""⟩ []).head?
        = some (ReqPart.text (formIdeasTemplate ⟨"mug", "", ""⟩)) :=
  ⟨generatePromptIdeas_template_choice.1 ⟨"", "", ""⟩ [ImageSource.file "image/png" "QQ"]
      rfl rfl rfl (by decide),
   generatePromptIdeas_template_choice.2 ⟨"mug", "", ""⟩ [] (Or.inl (by decide))⟩

theorem isErrorResult_runCatch (d : String) (r : Except JsThrown α) :
    isErrorResult (runCatch d r)
      = (match r with | .ok _ => false | .error _ => true) := by
  cases r <;> rfl

theorem ideasResponseHandler_ok_nonempty (jsonParse : String → Except JsThrown Json)
    (t : Option String) (l : List Json)
    (h : ideasResponseHandler jsonParse t = .ok l) : l ≠ [] := by
  unfold ideasResponseHandler at h
  repeat' split at h
  all_goals simp_all [List.length_pos]

theorem generatePromptIdeasBody_ok_nonempty (fd : IdeasFormData)
    (imgs : List ImageSource) (jsonParse : String → Except JsThrown Json)
    (call : List ReqPart → Except JsThrown TextResponse) (l : List Json)
    (h : generatePromptIdeasBody fd imgs jsonParse call = .ok l) : l ≠ [] := by
  unfold generatePromptIdeasBody at h
  split at h
  · cases h
  · cases hc : call (generatePromptIdeasParts fd imgs) with
    | error e => rw [hc] at h; cases h
    | ok resp => rw [hc] at h; exact ideasResponseHandler_ok_nonempty jsonParse resp.text l h

/-- C10: a normal return of generatePromptIdeas always carries at least
one idea; a response with no text, an unparseable JSON text, a missing or
non-array ideas field, or an empty ideas array makes the operation fail
with an error instead. -/
theorem generatePromptIdeas_never_empty :
    (∀ (fd : IdeasFormData) (imgs : List ImageSource)
        (jsonParse : String → Except JsThrown Json)
        (call : List ReqPart → Except JsThrown TextResponse) (l : List Json),
        generatePromptIdeas fd imgs jsonParse call = .ok l → l ≠ []) ∧
      (∀ fd imgs (jsonParse : String → Except JsThrown Json),
        isErrorResult (generatePromptIdeas fd imgs jsonParse fun _ => .ok ⟨none⟩) = true) ∧
      (∀ fd imgs (jsonParse : String → Except JsThrown Json) (s : String) (pe : JsThrown),
        s ≠ "" → jsonParse s = .error pe →
        isErrorResult (generatePromptIdeas fd imgs jsonParse fun _ => .ok ⟨some s⟩) = true) ∧
      (∀ fd imgs (jsonParse : String → Except JsThrown Json) (s : String) (j : Json),
        s ≠ "" → jsonParse s = .ok j → jsonMemberIdeas j = .ok none →
        isErrorResult (generatePromptIdeas fd imgs jsonParse fun _ => .ok ⟨some s⟩) = true) ∧
      (∀ fd imgs (jsonParse : String → Except JsThrown Json) (s : String) (j v : Json),
        s ≠ "" → jsonParse s = .ok j → jsonMemberIdeas j = .ok (some v) →
        (∀ xs, v ≠ Json.arr xs) →
        isErrorResult (generatePromptIdeas fd imgs jsonParse fun _ => .ok ⟨some s⟩) = true) ∧
      (∀ fd imgs (jsonParse : String → Except JsThrown Json) (s : String) (j : Json),
        s ≠ "" → jsonParse s = .ok j → jsonMemberIdeas j = .ok (some (Json.arr [])) →
        isErrorResult (generatePromptIdeas fd imgs jsonParse fun _ => .ok ⟨some s⟩) = true) := by
  refine ⟨?_, ?_, ?_, ?_, ?_, ?_⟩
  · intro fd imgs jsonParse call l h
    unfold generatePromptIdeas runCatch at h
    split at h
    · rename_i heq
      injection h with h2
      exact generatePromptIdeasBody_ok_nonempty fd imgs jsonParse call l (h2 ▸ heq)
    · cases h
  · intro fd imgs jsonParse
    have hbody : ∃ e2, generatePromptIdeasBody fd imgs jsonParse (fun _ => .ok ⟨none⟩)
        = .error e2 := by
      unfold generatePromptIdeasBody
      split
      · exact ⟨_, rfl⟩
      · exact ⟨_, rfl⟩
    obtain ⟨e2, he2⟩ := hbody
    unfold generatePromptIdeas
    rw [isErrorResult_runCatch, he2]
  · intro fd imgs jsonParse s pe hs hpe
    have he : ideasResponseHandler jsonParse (some s) = .error pe := by
      simp only [ideasResponseHandler, if_neg hs, hpe]
    have hbody : ∃ e2, generatePromptIdeasBody fd imgs jsonParse (fun _ => .ok ⟨some s⟩)
        = .error e2 := by
      unfold generatePromptIdeasBody
      split
      · exact ⟨_, rfl⟩
      · exact ⟨pe, he⟩
    obtain ⟨e2, he2⟩ := hbody
    unfold generatePromptIdeas
    rw [isErrorResult_runCatch, he2]
  · intro fd imgs jsonParse s j hs hj hm
    have he : ideasResponseHandler jsonParse (some s) = .error (.error invalidIdeasMsg) := by
      simp only [ideasResponseHandler, if_neg hs, hj, hm]
    have hbody : ∃ e2, generatePromptIdeasBody fd imgs jsonParse (fun _ => .ok ⟨some s⟩)
        = .error e2 := by
      unfold generatePromptIdeasBody
      split
      · exact ⟨_, rfl⟩
      · exact ⟨_, he⟩
    obtain ⟨e2, he2⟩ := hbody
    unfold generatePromptIdeas
    rw [isErrorResult_runCatch, he2]
  · intro fd imgs jsonParse s j v hs hj hm hv
    have he : ideasResponseHandler jsonParse (some s) = .error (.error invalidIdeasMsg) := by
      simp only [ideasResponseHandler, if_neg hs, hj, hm]
      cases v with
      | arr xs => exact absurd rfl (hv xs)
      | null => rfl
      | bool b => cases b <;> rfl
      | num m => by_cases hm0 : m = 0 <;> simp [jsonTruthy, hm0]
      | str t => by_cases ht0 : t = "" <;> simp [jsonTruthy, ht0]
      | obj kvs => rfl
    have hbody : ∃ e2, generatePromptIdeasBody fd imgs jsonParse (fun _ => .ok ⟨some s⟩)
        = .error e2 := by
      unfold generatePromptIdeasBody
      split
      · exact ⟨_, rfl⟩
      · exact ⟨_, he⟩
    obtain ⟨e2, he2⟩ := hbody
    unfold generatePromptIdeas
    rw [isErrorResult_runCatch, he2]
  · intro fd imgs jsonParse s j hs hj hm
    have he : ideasResponseHandler jsonParse (some s) = .error (.error invalidIdeasMsg) := by
      simp only [ideasResponseHandler, if_neg hs, hj, hm]
      rfl
    have hbody : ∃ e2, generatePromptIdeasBody fd imgs jsonParse (fun _ => .ok ⟨some s⟩)
        = .error e2 := by
      unfold generatePromptIdeasBody
      split
      · exact ⟨_, rfl⟩
      · exact ⟨_, he⟩
    obtain ⟨e2, he2⟩ := hbody
    unfold generatePromptIdeas
    rw [isErrorResult_runCatch, he2]

/-- Witness for C10: a well-formed ideas response yields a nonempty list,
and a response without text yields an error. -/
theorem generatePromptIdeas_never_empty_witness :
    generatePromptIdeas ⟨"x", "", ""⟩ []
        (fun _ => .ok (Json.obj [("ideas", Json.arr [Json.str "idea1"])]))
        (fun _ => .ok ⟨some "j"⟩) = .ok [Json.str "idea1"] ∧
      [Json.str "idea1"] ≠ ([] : List Json) ∧
      isErrorResult (generatePromptIdeas ⟨"x", "", ""⟩ []
        (fun _ => .ok (Json.obj [("ideas", Json.arr [Json.str "idea1"])]))
        (fun _ => .ok ⟨none⟩)) = true :=
  ⟨rfl,
   generatePromptIdeas_never_empty.1 ⟨"x", "", ""⟩ []
     (fun _ => .ok (Json.obj [("ideas", Json.arr [Json.str "idea1"])]))
     (fun _ => .ok ⟨some "j"⟩) [Json.str "idea1"] rfl,
   generatePromptIdeas_never_empty.2.1 ⟨"x", "", ""⟩ []
     (fun _ => .ok (Json.obj [("ideas", Json.arr [Json.str "idea1"])]))⟩
